import Mathlib

/-!
Verification model of the `ipregistry/r2index` core: the streaming
multi-digest checksum engine (`checksums.py`) and the transfer progress
normalization layer (`storage.py` / `async_storage.py`).

Bytes are modelled as natural numbers below 256, machine words as natural
numbers reduced modulo `2^32` / `2^64`, Python floats (monotonic timestamps,
byte rates) as exact rationals, and Python strings as Lean strings.
-/

/-! ### 32/64-bit word helpers (hashlib's digest algorithms operate on words) -/

def w32 (n : Nat) : Nat := n % 4294967296

def w64 (n : Nat) : Nat := n % 18446744073709551616

/-- Left-rotation of a 32-bit word (`x` is assumed `< 2^32`). -/
def rotl32 (x n : Nat) : Nat := w32 (x <<< n) + x >>> (32 - n)

/-- Right-rotation of a 32-bit word (`x` is assumed `< 2^32`). -/
def rotr32 (x n : Nat) : Nat := x >>> n + w32 ((x % (2 ^ n)) <<< (32 - n))

/-- Right-rotation of a 64-bit word (`x` is assumed `< 2^64`). -/
def rotr64 (x n : Nat) : Nat := x >>> n + w64 ((x % (2 ^ n)) <<< (64 - n))

/-- Bitwise complement within 32 bits. -/
def not32 (x : Nat) : Nat := x ^^^ 4294967295

/-- Bitwise complement within 64 bits. -/
def not64 (x : Nat) : Nat := x ^^^ 18446744073709551615

/-! ### Byte/word (de)serialization -/

/-- Little-endian 32-bit words from a byte list (groups of 4). -/
def toWordsLE : List Nat → List Nat
  | b0 :: b1 :: b2 :: b3 :: rest =>
      (b0 + 256 * b1 + 65536 * b2 + 16777216 * b3) :: toWordsLE rest
  | _ => []

/-- Big-endian 32-bit words from a byte list (groups of 4). -/
def toWordsBE : List Nat → List Nat
  | b0 :: b1 :: b2 :: b3 :: rest =>
      (16777216 * b0 + 65536 * b1 + 256 * b2 + b3) :: toWordsBE rest
  | _ => []

/-- Big-endian 64-bit words from a byte list (groups of 8). -/
def toWords64BE : List Nat → List Nat
  | b0 :: b1 :: b2 :: b3 :: b4 :: b5 :: b6 :: b7 :: rest =>
      (((((((b0 * 256 + b1) * 256 + b2) * 256 + b3) * 256 + b4) * 256 + b5) * 256
          + b6) * 256 + b7) :: toWords64BE rest
  | _ => []

/-- The 4 little-endian bytes of a 32-bit word. -/
def le32Bytes (n : Nat) : List Nat :=
  [n % 256, n / 256 % 256, n / 65536 % 256, n / 16777216 % 256]

/-- The 4 big-endian bytes of a 32-bit word. -/
def be32Bytes (n : Nat) : List Nat :=
  [n / 16777216 % 256, n / 65536 % 256, n / 256 % 256, n % 256]

/-- The 8 big-endian bytes of a 64-bit word. -/
def be64Bytes (n : Nat) : List Nat :=
  [n / 72057594037927936 % 256, n / 281474976710656 % 256,
   n / 1099511627776 % 256, n / 4294967296 % 256,
   n / 16777216 % 256, n / 65536 % 256, n / 256 % 256, n % 256]

/-- The 8 little-endian bytes of a 64-bit word. -/
def le64Bytes (n : Nat) : List Nat :=
  [n % 256, n / 256 % 256, n / 65536 % 256, n / 16777216 % 256,
   n / 4294967296 % 256, n / 1099511627776 % 256,
   n / 281474976710656 % 256, n / 72057594037927936 % 256]

/-- Lowercase hex digit for `n < 16`. -/
def hexDigit (n : Nat) : Char :=
  if n < 10 then Char.ofNat (48 + n) else Char.ofNat (87 + n)

/-- Two lowercase hex characters for a byte. -/
def byteToHex (b : Nat) : String :=
  String.mk [hexDigit (b / 16 % 16), hexDigit (b % 16)]

/-- Lowercase hexadecimal rendering of a byte list (hashlib's `hexdigest`). -/
def bytesToHex (l : List Nat) : String :=
  String.join (l.map byteToHex)

/-- Split a byte list into blocks of `n` bytes, structurally recursing on a
fuel bounded by the list length (each step removes at least one byte when
`0 < n`, so the fuel never runs out on the `n = 64` / `n = 128` uses). -/
def toBlocksFuel (n : Nat) : Nat → List Nat → List (List Nat)
  | 0, _ => []
  | _, [] => []
  | fuel + 1, b :: bs => (b :: bs).take n :: toBlocksFuel n fuel ((b :: bs).drop n)

/-- Split a byte list into blocks of `n` bytes (`n = 64` or `128` below). -/
def toBlocks (n : Nat) (l : List Nat) : List (List Nat) :=
  toBlocksFuel n l.length l

/-! ### MD5 (RFC 1321), the algorithm behind `hashlib.md5` -/

def md5K : List Nat := [
  3614090360, 3905402710, 606105819, 3250441966,
  4118548399, 1200080426, 2821735955, 4249261313,
  1770035416, 2336552879, 4294925233, 2304563134,
  1804603682, 4254626195, 2792965006, 1236535329,
  4129170786, 3225465664, 643717713, 3921069994,
  3593408605, 38016083, 3634488961, 3889429448,
  568446438, 3275163606, 4107603335, 1163531501,
  2850285829, 4243563512, 1735328473, 2368359562,
  4294588738, 2272392833, 1839030562, 4259657740,
  2763975236, 1272893353, 4139469664, 3200236656,
  681279174, 3936430074, 3572445317, 76029189,
  3654602809, 3873151461, 530742520, 3299628645,
  4096336452, 1126891415, 2878612391, 4237533241,
  1700485571, 2399980690, 4293915773, 2240044497,
  1873313359, 4264355552, 2734768916, 1309151649,
  4149444226, 3174756917, 718787259, 3951481745]

def md5S : List Nat := [
  7, 12, 17, 22, 7, 12, 17, 22, 7, 12, 17, 22, 7, 12, 17, 22,
  5, 9, 14, 20, 5, 9, 14, 20, 5, 9, 14, 20, 5, 9, 14, 20,
  4, 11, 16, 23, 4, 11, 16, 23, 4, 11, 16, 23, 4, 11, 16, 23,
  6, 10, 15, 21, 6, 10, 15, 21, 6, 10, 15, 21, 6, 10, 15, 21]

/-- One MD5 round `i` acting on `(a, b, c, d)` with message words `m`. -/
def md5Round (m : List Nat) (st : Nat × Nat × Nat × Nat) (i : Nat) :
    Nat × Nat × Nat × Nat :=
  let (a, b, c, d) := st
  let f :=
    if i < 16 then (b &&& c) ||| (not32 b &&& d)
    else if i < 32 then (d &&& b) ||| (not32 d &&& c)
    else if i < 48 then b ^^^ c ^^^ d
    else c ^^^ (b ||| not32 d)
  let g :=
    if i < 16 then i
    else if i < 32 then (5 * i + 1) % 16
    else if i < 48 then (3 * i + 5) % 16
    else (7 * i) % 16
  let f' := w32 (f + a + md5K.getD i 0 + m.getD g 0)
  (d, w32 (b + rotl32 f' (md5S.getD i 0)), b, c)

/-- MD5 compression of one 64-byte block into the running state. -/
def md5Block (st : Nat × Nat × Nat × Nat) (block : List Nat) :
    Nat × Nat × Nat × Nat :=
  let m := toWordsLE block
  let (a, b, c, d) := (List.range 64).foldl (md5Round m) st
  let (a0, b0, c0, d0) := st
  (w32 (a0 + a), w32 (b0 + b), w32 (c0 + c), w32 (d0 + d))

/-- MD5 padding: `0x80`, zeros to 56 mod 64, then the 64-bit LE bit length. -/
def md5Pad (msg : List Nat) : List Nat :=
  let len := msg.length
  let k := (119 - len % 64) % 64
  msg ++ [128] ++ List.replicate k 0 ++ le64Bytes (w64 (8 * len))

/-- Lowercase hex MD5 digest of a byte list (`hashlib.md5(...).hexdigest()`). -/
def md5Hex (msg : List Nat) : String :=
  let blocks := toBlocks 64 (md5Pad msg)
  let (a, b, c, d) :=
    blocks.foldl md5Block (1732584193, 4023233417, 2562383102, 271733878)
  bytesToHex (le32Bytes a ++ le32Bytes b ++ le32Bytes c ++ le32Bytes d)

/-! ### SHA-1 (FIPS 180), the algorithm behind `hashlib.sha1` -/

/-- Extend the 16 schedule words to 80, one word per fuel step. -/
def sha1Extend : Nat → List Nat → List Nat
  | 0, ws => ws
  | n + 1, ws =>
      let l := ws.length
      let w := rotl32 (ws.getD (l - 3) 0 ^^^ ws.getD (l - 8) 0 ^^^
                        ws.getD (l - 14) 0 ^^^ ws.getD (l - 16) 0) 1
      sha1Extend n (ws ++ [w])

/-- One SHA-1 round `i` acting on `(a, b, c, d, e)` with schedule `ws`. -/
def sha1Round (ws : List Nat) (st : Nat × Nat × Nat × Nat × Nat) (i : Nat) :
    Nat × Nat × Nat × Nat × Nat :=
  let (a, b, c, d, e) := st
  let f :=
    if i < 20 then (b &&& c) ||| (not32 b &&& d)
    else if i < 40 then b ^^^ c ^^^ d
    else if i < 60 then (b &&& c) ||| (b &&& d) ||| (c &&& d)
    else b ^^^ c ^^^ d
  let k :=
    if i < 20 then 1518500249
    else if i < 40 then 1859775393
    else if i < 60 then 2400959708
    else 3395469782
  let t := w32 (rotl32 a 5 + f + e + k + ws.getD i 0)
  (t, a, rotl32 b 30, c, d)

/-- SHA-1 compression of one 64-byte block into the running state. -/
def sha1Block (st : Nat × Nat × Nat × Nat × Nat) (block : List Nat) :
    Nat × Nat × Nat × Nat × Nat :=
  let ws := sha1Extend 64 (toWordsBE block)
  let (a, b, c, d, e) := (List.range 80).foldl (sha1Round ws) st
  let (h0, h1, h2, h3, h4) := st
  (w32 (h0 + a), w32 (h1 + b), w32 (h2 + c), w32 (h3 + d), w32 (h4 + e))

/-- SHA padding for 64-byte blocks: `0x80`, zeros, 64-bit BE bit length. -/
def sha1Pad (msg : List Nat) : List Nat :=
  let len := msg.length
  let k := (119 - len % 64) % 64
  msg ++ [128] ++ List.replicate k 0 ++ be64Bytes (w64 (8 * len))

/-- Lowercase hex SHA-1 digest of a byte list. -/
def sha1Hex (msg : List Nat) : String :=
  let blocks := toBlocks 64 (sha1Pad msg)
  let (a, b, c, d, e) :=
    blocks.foldl sha1Block
      (1732584193, 4023233417, 2562383102, 271733878, 3285377520)
  bytesToHex (be32Bytes a ++ be32Bytes b ++ be32Bytes c ++ be32Bytes d ++
    be32Bytes e)

/-! ### SHA-256 (FIPS 180-4), the algorithm behind `hashlib.sha256` -/

def sha256K : List Nat := [
  1116352408, 1899447441, 3049323471, 3921009573,
  961987163, 1508970993, 2453635748, 2870763221,
  3624381080, 310598401, 607225278, 1426881987,
  1925078388, 2162078206, 2614888103, 3248222580,
  3835390401, 4022224774, 264347078, 604807628,
  770255983, 1249150122, 1555081692, 1996064986,
  2554220882, 2821834349, 2952996808, 3210313671,
  3336571891, 3584528711, 113926993, 338241895,
  666307205, 773529912, 1294757372, 1396182291,
  1695183700, 1986661051, 2177026350, 2456956037,
  2730485921, 2820302411, 3259730800, 3345764771,
  3516065817, 3600352804, 4094571909, 275423344,
  430227734, 506948616, 659060556, 883997877,
  958139571, 1322822218, 1537002063, 1747873779,
  1955562222, 2024104815, 2227730452, 2361852424,
  2428436474, 2756734187, 3204031479, 3329325298]

/-- Extend the 16 schedule words to 64, one word per fuel step. -/
def sha256Extend : Nat → List Nat → List Nat
  | 0, ws => ws
  | n + 1, ws =>
      let l := ws.length
      let p15 := ws.getD (l - 15) 0
      let p2 := ws.getD (l - 2) 0
      let s0 := rotr32 p15 7 ^^^ rotr32 p15 18 ^^^ p15 >>> 3
      let s1 := rotr32 p2 17 ^^^ rotr32 p2 19 ^^^ p2 >>> 10
      sha256Extend n (ws ++ [w32 (ws.getD (l - 16) 0 + s0 + ws.getD (l - 7) 0 + s1)])

/-- One SHA-256 round `i` acting on the 8-word state with schedule `ws`. -/
def sha256Round (ws : List Nat)
    (st : Nat × Nat × Nat × Nat × Nat × Nat × Nat × Nat) (i : Nat) :
    Nat × Nat × Nat × Nat × Nat × Nat × Nat × Nat :=
  let (a, b, c, d, e, f, g, h) := st
  let s1 := rotr32 e 6 ^^^ rotr32 e 11 ^^^ rotr32 e 25
  let ch := (e &&& f) ^^^ (not32 e &&& g)
  let t1 := w32 (h + s1 + ch + sha256K.getD i 0 + ws.getD i 0)
  let s0 := rotr32 a 2 ^^^ rotr32 a 13 ^^^ rotr32 a 22
  let mj := (a &&& b) ^^^ (a &&& c) ^^^ (b &&& c)
  let t2 := w32 (s0 + mj)
  (w32 (t1 + t2), a, b, c, w32 (d + t1), e, f, g)

/-- SHA-256 compression of one 64-byte block into the running state. -/
def sha256Block (st : Nat × Nat × Nat × Nat × Nat × Nat × Nat × Nat)
    (block : List Nat) : Nat × Nat × Nat × Nat × Nat × Nat × Nat × Nat :=
  let ws := sha256Extend 48 (toWordsBE block)
  let (a, b, c, d, e, f, g, h) := (List.range 64).foldl (sha256Round ws) st
  let (h0, h1, h2, h3, h4, h5, h6, h7) := st
  (w32 (h0 + a), w32 (h1 + b), w32 (h2 + c), w32 (h3 + d),
   w32 (h4 + e), w32 (h5 + f), w32 (h6 + g), w32 (h7 + h))

/-- Lowercase hex SHA-256 digest of a byte list. -/
def sha256Hex (msg : List Nat) : String :=
  let blocks := toBlocks 64 (sha1Pad msg)
  let (a, b, c, d, e, f, g, h) :=
    blocks.foldl sha256Block
      (1779033703, 3144134277, 1013904242, 2773480762,
       1359893119, 2600822924, 528734635, 1541459225)
  bytesToHex (be32Bytes a ++ be32Bytes b ++ be32Bytes c ++ be32Bytes d ++
    be32Bytes e ++ be32Bytes f ++ be32Bytes g ++ be32Bytes h)

/-! ### SHA-512 (FIPS 180-4), the algorithm behind `hashlib.sha512` -/

def sha512K : List Nat := [
  4794697086780616226, 8158064640168781261,
  13096744586834688815, 16840607885511220156,
  4131703408338449720, 6480981068601479193,
  10538285296894168987, 12329834152419229976,
  15566598209576043074, 1334009975649890238,
  2608012711638119052, 6128411473006802146,
  8268148722764581231, 9286055187155687089,
  11230858885718282805, 13951009754708518548,
  16472876342353939154, 17275323862435702243,
  1135362057144423861, 2597628984639134821,
  3308224258029322869, 5365058923640841347,
  6679025012923562964, 8573033837759648693,
  10970295158949994411, 12119686244451234320,
  12683024718118986047, 13788192230050041572,
  14330467153632333762, 15395433587784984357,
  489312712824947311, 1452737877330783856,
  2861767655752347644, 3322285676063803686,
  5560940570517711597, 5996557281743188959,
  7280758554555802590, 8532644243296465576,
  9350256976987008742, 10552545826968843579,
  11727347734174303076, 12113106623233404929,
  14000437183269869457, 14369950271660146224,
  15101387698204529176, 15463397548674623760,
  17586052441742319658, 1182934255886127544,
  1847814050463011016, 2177327727835720531,
  2830643537854262169, 3796741975233480872,
  4115178125766777443, 5681478168544905931,
  6601373596472566643, 7507060721942968483,
  8399075790359081724, 8693463985226723168,
  9568029438360202098, 10144078919501101548,
  10430055236837252648, 11840083180663258601,
  13761210420658862357, 14299343276471374635,
  14566680578165727644, 15097957966210449927,
  16922976911328602910, 17689382322260857208,
  500013540394364858, 748580250866718886,
  1242879168328830382, 1977374033974150939,
  2944078676154940804, 3659926193048069267,
  4368137639120453308, 4836135668995329356,
  5532061633213252278, 6448918945643986474,
  6902733635092675308, 7801388544844847127]

/-- Extend the 16 schedule words to 80, one word per fuel step. -/
def sha512Extend : Nat → List Nat → List Nat
  | 0, ws => ws
  | n + 1, ws =>
      let l := ws.length
      let p15 := ws.getD (l - 15) 0
      let p2 := ws.getD (l - 2) 0
      let s0 := rotr64 p15 1 ^^^ rotr64 p15 8 ^^^ p15 >>> 7
      let s1 := rotr64 p2 19 ^^^ rotr64 p2 61 ^^^ p2 >>> 6
      sha512Extend n (ws ++ [w64 (ws.getD (l - 16) 0 + s0 + ws.getD (l - 7) 0 + s1)])

/-- One SHA-512 round `i` acting on the 8-word state with schedule `ws`. -/
def sha512Round (ws : List Nat)
    (st : Nat × Nat × Nat × Nat × Nat × Nat × Nat × Nat) (i : Nat) :
    Nat × Nat × Nat × Nat × Nat × Nat × Nat × Nat :=
  let (a, b, c, d, e, f, g, h) := st
  let s1 := rotr64 e 14 ^^^ rotr64 e 18 ^^^ rotr64 e 41
  let ch := (e &&& f) ^^^ (not64 e &&& g)
  let t1 := w64 (h + s1 + ch + sha512K.getD i 0 + ws.getD i 0)
  let s0 := rotr64 a 28 ^^^ rotr64 a 34 ^^^ rotr64 a 39
  let mj := (a &&& b) ^^^ (a &&& c) ^^^ (b &&& c)
  let t2 := w64 (s0 + mj)
  (w64 (t1 + t2), a, b, c, w64 (d + t1), e, f, g)

/-- SHA-512 compression of one 128-byte block into the running state. -/
def sha512Block (st : Nat × Nat × Nat × Nat × Nat × Nat × Nat × Nat)
    (block : List Nat) : Nat × Nat × Nat × Nat × Nat × Nat × Nat × Nat :=
  let ws := sha512Extend 64 (toWords64BE block)
  let (a, b, c, d, e, f, g, h) := (List.range 80).foldl (sha512Round ws) st
  let (h0, h1, h2, h3, h4, h5, h6, h7) := st
  (w64 (h0 + a), w64 (h1 + b), w64 (h2 + c), w64 (h3 + d),
   w64 (h4 + e), w64 (h5 + f), w64 (h6 + g), w64 (h7 + h))

/-- SHA-512 padding for 128-byte blocks: `0x80`, zeros, 128-bit BE length. -/
def sha512Pad (msg : List Nat) : List Nat :=
  let len := msg.length
  let k := (239 - len % 128) % 128
  msg ++ [128] ++ List.replicate k 0 ++
    be64Bytes (8 * len / 18446744073709551616) ++ be64Bytes (w64 (8 * len))

/-- Lowercase hex SHA-512 digest of a byte list. -/
def sha512Hex (msg : List Nat) : String :=
  let blocks := toBlocks 128 (sha512Pad msg)
  let (a, b, c, d, e, f, g, h) :=
    blocks.foldl sha512Block
      (7640891576956012808, 13503953896175478587,
       4354685564936845355, 11912009170470909681,
       5840696475078001361, 11170449401992604703,
       2270897969802886507, 6620516959819538809)
  bytesToHex (be64Bytes a ++ be64Bytes b ++ be64Bytes c ++ be64Bytes d ++
    be64Bytes e ++ be64Bytes f ++ be64Bytes g ++ be64Bytes h)

/-! ### The checksum engine (`checksums.py`)

A readable binary stream is modelled as the list of chunks its successive
`read(CHUNK_SIZE)` calls return; a `hashlib` accumulator is modelled by the
byte sequence fed to it so far (per hashlib's documented semantics, repeated
`update` calls are equivalent to a single call on the concatenation, and
`hexdigest` is the digest of that concatenation). -/

/-- Result of checksum computation (`ChecksumResult` dataclass). -/
structure ChecksumResult where
  md5 : String
  sha1 : String
  sha256 : String
  sha512 : String
  size : Nat
deriving DecidableEq, Repr

/-- A `hashlib` accumulator: the bytes fed to it so far. -/
structure HashState where
  data : List Nat
deriving DecidableEq, Repr

/-- `hash.update(chunk)` appends the chunk to the accumulated message. -/
def HashState.update (h : HashState) (chunk : List Nat) : HashState :=
  ⟨h.data ++ chunk⟩

/-- The read loop of `_compute_from_file_object`: read a chunk, stop on an
empty read, otherwise add its length to `size` and feed it to all four
accumulators, in order, before the next read.  Returns the final size and
the four accumulators.  (The throttled progress log inside the loop touches
no digest or size state and is omitted here; it is covered by the tracker
model below.) -/
def _compute_from_file_object :
    List (List Nat) → Nat → HashState → HashState → HashState → HashState →
      Nat × HashState × HashState × HashState × HashState
  | [], size, m, s1, s2, s5 => (size, m, s1, s2, s5)
  | chunk :: rest, size, m, s1, s2, s5 =>
      if chunk = [] then (size, m, s1, s2, s5)
      else
        _compute_from_file_object rest (size + chunk.length)
          (m.update chunk) (s1.update chunk) (s2.update chunk)
          (s5.update chunk)

/-- `compute_checksums_from_file_object`: fresh accumulators, run the read
loop, then take the four hexdigests and the byte count. -/
def compute_checksums_from_file_object (file_obj : List (List Nat)) :
    ChecksumResult :=
  let md5_hash : HashState := ⟨[]⟩
  let sha1_hash : HashState := ⟨[]⟩
  let sha256_hash : HashState := ⟨[]⟩
  let sha512_hash : HashState := ⟨[]⟩
  let r := _compute_from_file_object file_obj 0 md5_hash sha1_hash
    sha256_hash sha512_hash
  { md5 := md5Hex r.2.1.data
    sha1 := sha1Hex r.2.2.1.data
    sha256 := sha256Hex r.2.2.2.1.data
    sha512 := sha512Hex r.2.2.2.2.data
    size := r.1 }


/-! ### Python float formatting on exact rationals

`time.monotonic()` values, elapsed times and byte rates are modelled as
exact rationals; the dyadic values exercised by the claims are represented
exactly by both Python floats and rationals, and Python's `%.Nf` rounds
half-to-even, as below. -/

/-- Round to the nearest integer, ties to the even integer. -/
def roundHalfEven (q : ℚ) : ℤ :=
  let f := ⌊q⌋
  let r := q - f
  if r < 1 / 2 then f
  else if 1 / 2 < r then f + 1
  else if f % 2 = 0 then f else f + 1

/-- Left-pad a string with zeros to width `w`. -/
def padZeros (w : Nat) (s : String) : String :=
  if s.length < w then String.mk (List.replicate (w - s.length) '0') ++ s
  else s

/-- Python's `%.{prec}f` fixed-point formatting on an exact rational. -/
def fixFmt (prec : Nat) (q : ℚ) : String :=
  let n := roundHalfEven (q * (10 : ℚ) ^ prec)
  let sign := if n < 0 then "-" else ""
  let m := n.natAbs
  sign ++ toString (m / 10 ^ prec) ++ "." ++
    padZeros prec (toString (m % 10 ^ prec))

/-- `_format_bytes` unit loop: try each unit, dividing by 1024. -/
def _format_bytes_loop : List String → ℚ → String
  | [], size => fixFmt 2 size ++ " PB"
  | unit :: units, size =>
      if |size| < 1024 then fixFmt 2 size ++ " " ++ unit
      else _format_bytes_loop units (size / 1024)

/-- `_format_bytes(size)`: human-readable byte count (`storage.py`). -/
def _format_bytes (size : ℚ) : String :=
  _format_bytes_loop ["B", "KB", "MB", "GB", "TB"] size

/-! ### The progress tracker (`_ProgressCallback` / `_AsyncProgressCallback`)

The model below embeds `_AsyncProgressCallback` (`async_storage.py`), whose
`__call__` is the one with both signal interpretations; the synchronous
`_ProgressCallback` (`storage.py`) is the special case `_cumulative = false`
(its `__call__`, `finish` and `_log_progress` are otherwise line-for-line
identical).  The user callback is modelled by its presence flag and by the
value passed to it, returned as an output of each call; log emission is
returned as the emitted line. -/

/-- The mutable state of one progress tracker instance. -/
structure _AsyncProgressCallback where
  _callback_present : Bool
  _bytes_transferred : ℤ
  _total_size : Option ℤ
  _progress_interval : Option ℚ
  _operation : String
  _cumulative : Bool
  _last_log_time : ℚ
  _start_time : ℚ
deriving DecidableEq, Repr

/-- `__init__`: zero counter, timestamps sampled at construction time `now`
(the two `time.monotonic()` samples are collapsed to one instant). -/
def _AsyncProgressCallback.init (callback_present : Bool)
    (total_size : Option ℤ) (progress_interval : Option ℚ)
    (operation : String) (cumulative : Bool) (now : ℚ) :
    _AsyncProgressCallback :=
  { _callback_present := callback_present
    _bytes_transferred := 0
    _total_size := total_size
    _progress_interval := progress_interval
    _operation := operation
    _cumulative := cumulative
    _last_log_time := now
    _start_time := now }

/-- The throughput rate in `_log_progress`:
`speed = self._bytes_transferred / elapsed if elapsed > 0 else 0`. -/
def _log_speed (bytes_transferred : ℤ) (elapsed : ℚ) : ℚ :=
  if 0 < elapsed then (bytes_transferred : ℚ) / elapsed else 0

/-- The line `_log_progress(now)` hands to `logger.info`: percentage form
if the total size is known and positive, plain form otherwise. -/
def _log_progress_line (s : _AsyncProgressCallback) (now : ℚ) : String :=
  let elapsed := now - s._start_time
  let speed := _log_speed s._bytes_transferred elapsed
  let transferred := _format_bytes (s._bytes_transferred : ℚ)
  let speed_str := _format_bytes speed
  match s._total_size with
  | some t =>
      if 0 < t then
        s._operation ++ ": " ++ transferred ++ " / " ++ _format_bytes (t : ℚ)
          ++ " (" ++ fixFmt 1 ((s._bytes_transferred : ℚ) / (t : ℚ) * 100)
          ++ "%) — " ++ speed_str ++ "/s"
      else s._operation ++ ": " ++ transferred ++ " — " ++ speed_str ++ "/s"
  | none => s._operation ++ ": " ++ transferred ++ " — " ++ speed_str ++ "/s"

/-- Outputs of one `__call__`: the updated state, the value passed to the
user callback (if one is present), and the log line emitted (if any). -/
structure CallResult where
  state : _AsyncProgressCallback
  callback_out : Option ℤ
  log_out : Option String
deriving DecidableEq, Repr

/-- `__call__(bytes_amount)` at monotonic instant `now`: update the counter
(replace if cumulative, accumulate otherwise), invoke the user callback with
the new cumulative value, then, if logging is enabled and the interval has
elapsed since the last log, emit a line and update the last-log time. -/
def _AsyncProgressCallback.call (s : _AsyncProgressCallback)
    (bytes_amount : ℤ) (now : ℚ) : CallResult :=
  let bt := if s._cumulative then bytes_amount
            else s._bytes_transferred + bytes_amount
  let s1 := { s with _bytes_transferred := bt }
  let cb := if s._callback_present then some bt else none
  match s._progress_interval with
  | none => ⟨s1, cb, none⟩
  | some interval =>
      if interval ≤ now - s._last_log_time then
        ⟨{ s1 with _last_log_time := now }, cb, some (_log_progress_line s1 now)⟩
      else ⟨s1, cb, none⟩

/-- `finish()`: log final progress unconditionally (exactly one line). -/
def _AsyncProgressCallback.finish (s : _AsyncProgressCallback) (now : ℚ) :
    String :=
  _log_progress_line s now

/-- Feed a sequence of `(bytes_amount, now)` signals to a tracker; collect
the final state, the user-callback observations and the emitted log lines,
in order. -/
def runSignals : _AsyncProgressCallback → List (ℤ × ℚ) →
    _AsyncProgressCallback × List ℤ × List String
  | s, [] => (s, [], [])
  | s, (v, now) :: rest =>
      let r := s.call v now
      let rec_result := runSignals r.state rest
      (rec_result.1, r.callback_out.toList ++ rec_result.2.1,
        r.log_out.toList ++ rec_result.2.2)

/-- All log lines of a complete tracker lifetime: the signals, then
`finish()` at instant `tFinish`. -/
def runAndFinish (s : _AsyncProgressCallback) (sigs : List (ℤ × ℚ))
    (tFinish : ℚ) : List String :=
  let r := runSignals s sigs
  r.2.2 ++ [r.1.finish tFinish]

/-- `time.monotonic()` never decreases: each signal's instant is at least
the previous one (and at least the construction instant `t0`). -/
def timesChainB : ℚ → List (ℤ × ℚ) → Bool
  | _, [] => true
  | t, (_, now) :: rest => decide (t ≤ now) && timesChainB now rest

/-! ### Fine-grained interleaving of the counter update

`self._bytes_transferred += bytes_amount` (`storage.py` line 323,
`async_storage.py` line 329) is, at Python bytecode granularity, a load of
the attribute followed by a separate store of the sum; no lock is taken
anywhere in either class.  Two concurrent `__call__` invocations (boto3
delivers them from worker threads when `use_threads=True`) are modelled as
two read/write action pairs whose four atomic actions may interleave in any
order consistent with each thread's program order. -/

inductive ThreadId where
  | t1
  | t2
deriving DecidableEq, Repr

inductive RmwAction where
  | read
  | write
deriving DecidableEq, Repr

/-- Shared counter plus each thread's private register holding the value it
loaded. -/
structure RaceState where
  counter : ℤ
  reg1 : ℤ
  reg2 : ℤ
deriving DecidableEq, Repr

/-- One atomic action: a thread either loads the counter into its register
or stores `register + its bytes_amount` back. -/
def rmwStep (v1 v2 : ℤ) (s : RaceState) : ThreadId × RmwAction → RaceState
  | (.t1, .read) => { s with reg1 := s.counter }
  | (.t1, .write) => { s with counter := s.reg1 + v1 }
  | (.t2, .read) => { s with reg2 := s.counter }
  | (.t2, .write) => { s with counter := s.reg2 + v2 }

/-- Execute a schedule (a chosen interleaving of the two threads' actions)
from an initial state. -/
def execSched (v1 v2 : ℤ) (s : RaceState) (sched : List (ThreadId × RmwAction)) :
    RaceState :=
  sched.foldl (rmwStep v1 v2) s

/-- The two serialized schedules and the overlapped one. -/
def serialSched12 : List (ThreadId × RmwAction) :=
  [(.t1, .read), (.t1, .write), (.t2, .read), (.t2, .write)]

def serialSched21 : List (ThreadId × RmwAction) :=
  [(.t2, .read), (.t2, .write), (.t1, .read), (.t1, .write)]

/-- Both threads read before either writes (a valid interleaving: each
thread's own read still precedes its own write). -/
def overlappedSched : List (ThreadId × RmwAction) :=
  [(.t1, .read), (.t2, .read), (.t1, .write), (.t2, .write)]

/-! ### `download_file` (`storage.py` lines 226-301, `async_storage.py`
lines 211-297), as the trace of externally visible effects

The backend, filesystem and logger are modelled by the effect trace the
function produces; its inputs abstract the environment: whether the
destination exists, what `head_object` returns (`none` models the swallowed
exception), and the progress signals the backend delivers during the
transfer.  The `cumulative` flag distinguishes the async variant (which
constructs its tracker with `cumulative=True`) from the sync one. -/

inductive DownloadEffect where
  | skipLog
  | mkdirParent
  | configLog
  | headObject
  | trackerCreated
  | userCallback (cumulative : ℤ)
  | progressLog (line : String)
  | backendDownload
deriving DecidableEq, Repr

/-- Effects produced while the backend delivers progress signals to the
tracker: per signal, the user-callback invocation (if any) then the
throttled log line (if any). -/
def signalEffects : _AsyncProgressCallback → List (ℤ × ℚ) →
    _AsyncProgressCallback × List DownloadEffect
  | s, [] => (s, [])
  | s, (v, now) :: rest =>
      let r := s.call v now
      let rec_result := signalEffects r.state rest
      (rec_result.1,
        (r.callback_out.toList.map DownloadEffect.userCallback) ++
          (r.log_out.toList.map DownloadEffect.progressLog) ++ rec_result.2)

/-- `download_file(bucket, key, file_path, overwrite, progress_callback,
progress_interval, transfer_config)`: returns the destination path and the
trace of effects.  The early-return branch emits only the skip log; the
transfer branch logs the transfer config, creates the parent directory,
probes the object size (building a tracker when a callback or interval is
configured), runs the backend download (which drives the tracker), and
finishes the tracker. -/
def download_file (overwrite dest_exists : Bool) (file_path : String)
    (progress_callback : Bool) (progress_interval : Option ℚ)
    (head_content_length : Option (Option ℤ)) (cumulative : Bool)
    (signals : List (ℤ × ℚ)) (t0 tFinish : ℚ) :
    String × List DownloadEffect :=
  if !overwrite && dest_exists then (file_path, [.skipLog])
  else
    let pre := [DownloadEffect.mkdirParent, DownloadEffect.configLog]
    if progress_callback || progress_interval.isSome then
      let total_size : Option ℤ := match head_content_length with
        | none => none
        | some v => v
      let callback := _AsyncProgressCallback.init progress_callback
        total_size progress_interval "Downloading" cumulative t0
      let r := signalEffects callback signals
      (file_path,
        pre ++ [.headObject, .trackerCreated, .backendDownload] ++ r.2 ++
          [.progressLog (r.1.finish tFinish)])
    else (file_path, pre ++ [.backendDownload])

/-! ## Supporting lemmas for the checksum engine -/

lemma HashState.update_nil (h : HashState) : h.update [] = h := by
  simp [HashState.update]

lemma HashState.update_append (h : HashState) (a b : List Nat) :
    h.update (a ++ b) = (h.update a).update b := by
  simp [HashState.update]

/-- With no empty chunk in the stream, the read loop consumes everything:
the size grows by the total length and each accumulator is fed the
concatenation of the chunks. -/
lemma compute_from_file_object_eq (cs : List (List Nat))
    (h : ∀ c ∈ cs, c ≠ []) (n : Nat) (m s1 s2 s5 : HashState) :
    _compute_from_file_object cs n m s1 s2 s5 =
      (n + cs.flatten.length, m.update cs.flatten, s1.update cs.flatten,
        s2.update cs.flatten, s5.update cs.flatten) := by
  induction cs generalizing n m s1 s2 s5 with
  | nil => simp [_compute_from_file_object, HashState.update_nil]
  | cons c rest ih =>
      have hc : c ≠ [] := h c (by simp)
      have hrest : ∀ x ∈ rest, x ≠ [] := fun x hx => h x (by simp [hx])
      rw [_compute_from_file_object]
      rw [if_neg hc]
      rw [ih hrest]
      simp [List.flatten_cons, HashState.update_append, List.length_append]
      omega

/-- The engine's result is a function of the concatenated byte stream. -/
lemma compute_checksums_eq (cs : List (List Nat)) (h : ∀ c ∈ cs, c ≠ []) :
    compute_checksums_from_file_object cs =
      { md5 := md5Hex cs.flatten, sha1 := sha1Hex cs.flatten,
        sha256 := sha256Hex cs.flatten, sha512 := sha512Hex cs.flatten,
        size := cs.flatten.length } := by
  simp only [compute_checksums_from_file_object]
  rw [compute_from_file_object_eq cs h]
  simp [HashState.update]

/-- C5: Splitting the same byte sequence at different chunk boundaries
during the read loop never changes any of the four resulting digests: for
every two chunkings (streams of non-empty reads) with the same
concatenation, `compute_checksums_from_file_object` yields equal `md5`,
`sha1`, `sha256` and `sha512` values (indeed equal full results). -/
theorem chunking_invariance (cs cs' : List (List Nat))
    (h : ∀ c ∈ cs, c ≠ []) (h' : ∀ c ∈ cs', c ≠ [])
    (hjoin : cs.flatten = cs'.flatten) :
    (compute_checksums_from_file_object cs).md5 =
        (compute_checksums_from_file_object cs').md5 ∧
      (compute_checksums_from_file_object cs).sha1 =
        (compute_checksums_from_file_object cs').sha1 ∧
      (compute_checksums_from_file_object cs).sha256 =
        (compute_checksums_from_file_object cs').sha256 ∧
      (compute_checksums_from_file_object cs).sha512 =
        (compute_checksums_from_file_object cs').sha512 := by
  rw [compute_checksums_eq cs h, compute_checksums_eq cs' h', hjoin]
  exact ⟨rfl, rfl, rfl, rfl⟩

/-- Witness for C5: the chunkings `[[1,2],[3]]` and `[[1],[2,3]]` of the
byte sequence `[1,2,3]` yield identical digests. -/
theorem chunking_invariance_witness :
    (compute_checksums_from_file_object [[1, 2], [3]]).md5 =
        (compute_checksums_from_file_object [[1], [2, 3]]).md5 ∧
      (compute_checksums_from_file_object [[1, 2], [3]]).sha1 =
        (compute_checksums_from_file_object [[1], [2, 3]]).sha1 ∧
      (compute_checksums_from_file_object [[1, 2], [3]]).sha256 =
        (compute_checksums_from_file_object [[1], [2, 3]]).sha256 ∧
      (compute_checksums_from_file_object [[1, 2], [3]]).sha512 =
        (compute_checksums_from_file_object [[1], [2, 3]]).sha512 :=
  chunking_invariance [[1, 2], [3]] [[1], [2, 3]]
    (by decide) (by decide) (by decide)

set_option maxRecDepth 100000 in
/-- C6: a zero-byte input is valid, not an error: on the empty stream the
engine returns `size = 0` and the standard empty-input digest of each
algorithm, in particular `md5 = "d41d8cd98f00b204e9800998ecf8427e"`. -/
theorem empty_input_checksums :
    (compute_checksums_from_file_object []).size = 0 ∧
      (compute_checksums_from_file_object []).md5 =
        "d41d8cd98f00b204e9800998ecf8427e" ∧
      (compute_checksums_from_file_object []).sha1 =
        "da39a3ee5e6b4b0d3255bfef95601890afd80709" ∧
      (compute_checksums_from_file_object []).sha256 =
        "e3b0c44298fc1c149afbf4c8996fb92427ae41e4649b934ca495991b7852b855" ∧
      (compute_checksums_from_file_object []).sha512 =
        "cf83e1357eefb8bdf1542850d66d8007d620e4050b5715dc83f4a921d36ce9ce47d0d13c5d85f2b0ff8318d2877eec2f63b931bd47417a81a538327af927da3e" := by
  exact ⟨rfl, rfl, rfl, rfl, rfl⟩

/-! ## Supporting lemmas for the progress tracker -/

lemma call_bytes (s : _AsyncProgressCallback) (v : ℤ) (now : ℚ) :
    (s.call v now).state._bytes_transferred =
      if s._cumulative then v else s._bytes_transferred + v := by
  unfold _AsyncProgressCallback.call
  cases s._progress_interval
  · rfl
  · dsimp only
    split
    · rfl
    · rfl

lemma call_cumulative (s : _AsyncProgressCallback) (v : ℤ) (now : ℚ) :
    (s.call v now).state._cumulative = s._cumulative := by
  unfold _AsyncProgressCallback.call
  cases s._progress_interval
  · rfl
  · dsimp only
    split
    · rfl
    · rfl

lemma call_interval (s : _AsyncProgressCallback) (v : ℤ) (now : ℚ) :
    (s.call v now).state._progress_interval = s._progress_interval := by
  unfold _AsyncProgressCallback.call
  cases h : s._progress_interval
  · rfl
  · dsimp only
    split
    · simp [h]
    · simp [h]

lemma call_callback_out (s : _AsyncProgressCallback) (v : ℤ) (now : ℚ) :
    (s.call v now).callback_out =
      if s._callback_present then
        some (if s._cumulative then v else s._bytes_transferred + v)
      else none := by
  unfold _AsyncProgressCallback.call
  cases s._progress_interval
  · rfl
  · dsimp only
    split
    · rfl
    · rfl

lemma call_log_out_none (s : _AsyncProgressCallback) (v : ℤ) (now : ℚ)
    (h : s._progress_interval = none) : (s.call v now).log_out = none := by
  unfold _AsyncProgressCallback.call
  rw [h]

lemma call_zero_interval (s : _AsyncProgressCallback) (v : ℤ) (now : ℚ)
    (h : s._progress_interval = some 0) (hle : s._last_log_time ≤ now) :
    (s.call v now).log_out.isSome = true ∧
      (s.call v now).state._last_log_time = now := by
  unfold _AsyncProgressCallback.call
  rw [h]
  dsimp only
  rw [if_pos (by linarith)]
  exact ⟨rfl, rfl⟩

lemma runSignals_cons (s : _AsyncProgressCallback) (v : ℤ) (now : ℚ)
    (rest : List (ℤ × ℚ)) :
    runSignals s ((v, now) :: rest) =
      ((runSignals (s.call v now).state rest).1,
        (s.call v now).callback_out.toList ++
          (runSignals (s.call v now).state rest).2.1,
        (s.call v now).log_out.toList ++
          (runSignals (s.call v now).state rest).2.2) := by
  rfl

/-- An incremental-mode tracker's counter never decreases across a run of
non-negative signals. -/
lemma runSignals_mono :
    ∀ (sigs : List (ℤ × ℚ)) (s : _AsyncProgressCallback),
      s._cumulative = false → (∀ p ∈ sigs, 0 ≤ p.1) →
      s._bytes_transferred ≤ (runSignals s sigs).1._bytes_transferred := by
  intro sigs
  induction sigs with
  | nil => intro s _ _; simp [runSignals]
  | cons p rest ih =>
      intro s hm hs
      obtain ⟨v, now⟩ := p
      rw [runSignals_cons]
      dsimp only
      have h1 : s._bytes_transferred ≤ (s.call v now).state._bytes_transferred := by
        rw [call_bytes, hm]
        have : (0 : ℤ) ≤ v := hs (v, now) (by simp)
        simp
        linarith
      have h2 := ih (s.call v now).state (by rw [call_cumulative]; exact hm)
        (fun q hq => hs q (by simp [hq]))
      linarith

/-- With logging disabled (`progress_interval = None`) no signal ever emits
a log line. -/
lemma runSignals_logs_none :
    ∀ (sigs : List (ℤ × ℚ)) (s : _AsyncProgressCallback),
      s._progress_interval = none → (runSignals s sigs).2.2 = [] := by
  intro sigs
  induction sigs with
  | nil => intro s _; simp [runSignals]
  | cons p rest ih =>
      intro s h
      obtain ⟨v, now⟩ := p
      rw [runSignals_cons]
      dsimp only
      rw [call_log_out_none s v now h,
        ih (s.call v now).state (by rw [call_interval]; exact h)]
      rfl

/-- With `progress_interval = 0` and monotonic signal instants, every signal
emits exactly one log line. -/
lemma runSignals_logs_zero :
    ∀ (sigs : List (ℤ × ℚ)) (s : _AsyncProgressCallback),
      s._progress_interval = some 0 →
      timesChainB s._last_log_time sigs = true →
      (runSignals s sigs).2.2.length = sigs.length := by
  intro sigs
  induction sigs with
  | nil => intro s _ _; simp [runSignals]
  | cons p rest ih =>
      intro s h hc
      obtain ⟨v, now⟩ := p
      rw [timesChainB] at hc
      simp only [Bool.and_eq_true, decide_eq_true_eq] at hc
      obtain ⟨hle, hchain⟩ := hc
      obtain ⟨hlog, hlast⟩ := call_zero_interval s v now h hle
      rw [runSignals_cons]
      dsimp only
      rw [List.length_append]
      have h1 : (s.call v now).log_out.toList.length = 1 := by
        cases hl : (s.call v now).log_out
        · rw [hl] at hlog; simp at hlog
        · simp
      rw [h1, ih (s.call v now).state (by rw [call_interval]; exact h)
        (by rw [hlast]; exact hchain)]
      simp [Nat.add_comm]

/-! ## Claims C1-C3: counter update semantics -/

/-- Counterexample to C1 as stated: a CUMULATIVE-mode tracker receiving the
non-negative signals `300` then `100` has its counter decrease from `300`
to `100` (the second signal replaces the counter). -/
theorem cumulative_decrease_counterexample :
    ((_AsyncProgressCallback.init false none none "Downloading" true 0).call
        300 0).state._bytes_transferred = 300 ∧
      (((_AsyncProgressCallback.init false none none "Downloading" true 0).call
          300 0).state.call 100 0).state._bytes_transferred = 100 ∧
      (((_AsyncProgressCallback.init false none none "Downloading" true 0).call
          300 0).state.call 100 0).state._bytes_transferred <
        ((_AsyncProgressCallback.init false none none "Downloading" true 0).call
          300 0).state._bytes_transferred := by
  refine ⟨rfl, rfl, ?_⟩
  with_unfolding_all decide

/-- C1 amended: in INCREMENTAL mode the counter is non-decreasing over any
run of non-negative signals; in CUMULATIVE mode each signal simply replaces
the counter with the signalled value (so the counter is non-decreasing only
when the signal sequence itself is). -/
theorem bytes_transferred_monotone (s : _AsyncProgressCallback)
    (sigs : List (ℤ × ℚ)) (v : ℤ) (now : ℚ) :
    (s._cumulative = false → (∀ p ∈ sigs, 0 ≤ p.1) →
      s._bytes_transferred ≤ (runSignals s sigs).1._bytes_transferred) ∧
      (s._cumulative = true → (s.call v now).state._bytes_transferred = v) := by
  constructor
  · intro hm hs
    exact runSignals_mono sigs s hm hs
  · intro hm
    rw [call_bytes, hm]
    rfl

/-- Witness for C1: an incremental tracker fed `[100, 200]` goes from `0`
to a counter at least `0`; a cumulative tracker signalled `42` holds `42`. -/
theorem bytes_transferred_monotone_witness :
    ((_AsyncProgressCallback.init true none none "Uploading" false 0
        )._bytes_transferred ≤
      (runSignals (_AsyncProgressCallback.init true none none "Uploading"
          false 0) [(100, 0), (200, 0)]).1._bytes_transferred) ∧
      ((_AsyncProgressCallback.init true none none "Downloading" true 0).call
          42 0).state._bytes_transferred = 42 :=
  ⟨(bytes_transferred_monotone
      (_AsyncProgressCallback.init true none none "Uploading" false 0)
      [(100, 0), (200, 0)] 0 0).1 rfl (by decide),
    (bytes_transferred_monotone
      (_AsyncProgressCallback.init true none none "Downloading" true 0)
      [] 42 0).2 rfl⟩

/-- C2: in INCREMENTAL mode each signal adds its value to the counter and,
when a user callback is present, the callback is invoked with the new
cumulative value on every signal; concretely, feeding `100` then `200`
yields a counter of `300` and callback observations `100` then `300`. -/
theorem incremental_accumulates_and_calls_back (s : _AsyncProgressCallback)
    (v : ℤ) (now : ℚ) (hm : s._cumulative = false)
    (hcb : s._callback_present = true) :
    ((s.call v now).state._bytes_transferred = s._bytes_transferred + v ∧
      (s.call v now).callback_out = some (s._bytes_transferred + v)) ∧
      ((runSignals (_AsyncProgressCallback.init true none none "Uploading"
          false 0) [(100, 0), (200, 0)]).1._bytes_transferred = 300 ∧
        (runSignals (_AsyncProgressCallback.init true none none "Uploading"
          false 0) [(100, 0), (200, 0)]).2.1 = [100, 300]) := by
  refine ⟨⟨?_, ?_⟩, rfl, rfl⟩
  · rw [call_bytes, hm]
    rfl
  · rw [call_callback_out, hcb, hm]
    rfl

/-- Witness for C2: the incremental two-signal run evaluated concretely. -/
theorem incremental_accumulates_witness :
    (((_AsyncProgressCallback.init true none none "Uploading" false 0).call
        100 0).state._bytes_transferred = 0 + 100 ∧
      ((_AsyncProgressCallback.init true none none "Uploading" false 0).call
        100 0).callback_out = some (0 + 100)) ∧
      ((runSignals (_AsyncProgressCallback.init true none none "Uploading"
          false 0) [(100, 0), (200, 0)]).1._bytes_transferred = 300 ∧
        (runSignals (_AsyncProgressCallback.init true none none "Uploading"
          false 0) [(100, 0), (200, 0)]).2.1 = [100, 300]) :=
  incremental_accumulates_and_calls_back
    (_AsyncProgressCallback.init true none none "Uploading" false 0)
    100 0 rfl rfl

/-- C3: in CUMULATIVE mode each signal replaces the counter with the
signalled value (last value wins); concretely, feeding `100` then `300`
yields a counter of `300`, not `400`. -/
theorem cumulative_replaces (s : _AsyncProgressCallback) (v : ℤ) (now : ℚ)
    (hm : s._cumulative = true) :
    (s.call v now).state._bytes_transferred = v ∧
      (runSignals (_AsyncProgressCallback.init true none none "Downloading"
        true 0) [(100, 0), (300, 0)]).1._bytes_transferred = 300 := by
  refine ⟨?_, rfl⟩
  rw [call_bytes, hm]
  rfl

/-- Witness for C3: the cumulative two-signal run evaluated concretely. -/
theorem cumulative_replaces_witness :
    ((_AsyncProgressCallback.init true none none "Downloading" true 0).call
        100 0).state._bytes_transferred = 100 ∧
      (runSignals (_AsyncProgressCallback.init true none none "Downloading"
        true 0) [(100, 0), (300, 0)]).1._bytes_transferred = 300 :=
  cumulative_replaces
    (_AsyncProgressCallback.init true none none "Downloading" true 0)
    100 0 rfl

/-! ## Claim C4: throttling boundary cases -/

/-- C4: with `progress_interval = 0` every signal (at monotonic instants)
produces a log emission; with `progress_interval = None` no signal ever
produces one; and `finish()` always emits exactly one line, even
immediately after construction with no prior signals. -/
theorem throttle_boundary_cases (cbp : Bool) (tot : Option ℤ) (op : String)
    (cum : Bool) (t0 tF : ℚ) (sigs : List (ℤ × ℚ))
    (hchain : timesChainB t0 sigs = true) :
    (runAndFinish (_AsyncProgressCallback.init cbp tot (some 0) op cum t0)
        sigs tF).length = sigs.length + 1 ∧
      (runAndFinish (_AsyncProgressCallback.init cbp tot none op cum t0)
        sigs tF).length = 1 ∧
      runAndFinish (_AsyncProgressCallback.init cbp tot none op cum t0) [] tF
        = [_log_progress_line
            (_AsyncProgressCallback.init cbp tot none op cum t0) tF] := by
  refine ⟨?_, ?_, rfl⟩
  · unfold runAndFinish
    rw [List.length_append]
    rw [runSignals_logs_zero sigs
      (_AsyncProgressCallback.init cbp tot (some 0) op cum t0) rfl hchain]
    rfl
  · unfold runAndFinish
    rw [List.length_append]
    rw [runSignals_logs_none sigs
      (_AsyncProgressCallback.init cbp tot none op cum t0) rfl]
    rfl

/-- Witness for C4: two signals at instants `0 ≤ 1 ≤ 2` under interval `0`
give three log lines in total (two throttled ones plus the final one), and
the disabled-logging tracker's whole lifetime gives exactly one. -/
theorem throttle_boundary_cases_witness :
    (runAndFinish (_AsyncProgressCallback.init true (some 1000) (some 0)
        "Downloading" false 0) [(100, 1), (200, 2)] 3).length = 2 + 1 ∧
      (runAndFinish (_AsyncProgressCallback.init true (some 1000) none
        "Downloading" false 0) [(100, 1), (200, 2)] 3).length = 1 ∧
      runAndFinish (_AsyncProgressCallback.init true (some 1000) none
          "Downloading" false 0) [] 3
        = [_log_progress_line (_AsyncProgressCallback.init true (some 1000)
            none "Downloading" false 0) 3] :=
  throttle_boundary_cases true (some 1000) "Downloading" false 0 3
    [(100, 1), (200, 2)] (by with_unfolding_all decide)

/-! ## Claim C7: log line format -/

/-- Rounding an exact integer changes nothing. -/
lemma roundHalfEven_intCast (z : ℤ) : roundHalfEven ((z : ℚ)) = z := by
  unfold roundHalfEven
  norm_num [Int.floor_intCast]

/-- `fixFmt` on a rational whose scaling by `10^prec` is the integer `z`. -/
lemma fixFmt_ofInt (prec : Nat) (q : ℚ) (z : ℤ)
    (h : q * (10 : ℚ) ^ prec = (z : ℚ)) :
    fixFmt prec q = (if z < 0 then "-" else "") ++
      toString (z.natAbs / 10 ^ prec) ++ "." ++
      padZeros prec (toString (z.natAbs % 10 ^ prec)) := by
  unfold fixFmt
  rw [h, roundHalfEven_intCast]

lemma format_bytes_zero : _format_bytes 0 = "0.00 B" := by
  unfold _format_bytes
  rw [_format_bytes_loop, if_pos (by norm_num),
    fixFmt_ofInt 2 0 0 (by norm_num)]
  decide

lemma format_bytes_524288 : _format_bytes ((524288 : ℚ)) = "512.00 KB" := by
  have h2 : (524288 : ℚ) / 1024 = 512 := by norm_num
  unfold _format_bytes
  rw [_format_bytes_loop, if_neg (by rw [abs_of_nonneg] <;> norm_num), h2,
    _format_bytes_loop, if_pos (by rw [abs_of_nonneg] <;> norm_num),
    fixFmt_ofInt 2 512 51200 (by norm_num)]
  decide

lemma format_bytes_1048576 : _format_bytes ((1048576 : ℚ)) = "1.00 MB" := by
  have h2 : (1048576 : ℚ) / 1024 = 1024 := by norm_num
  have h3 : (1024 : ℚ) / 1024 = 1 := by norm_num
  unfold _format_bytes
  rw [_format_bytes_loop, if_neg (by rw [abs_of_nonneg] <;> norm_num), h2,
    _format_bytes_loop, if_neg (by rw [abs_of_nonneg] <;> norm_num), h3,
    _format_bytes_loop, if_pos (by rw [abs_of_nonneg] <;> norm_num),
    fixFmt_ofInt 2 1 100 (by norm_num)]
  decide

lemma log_speed_zero_elapsed (b : ℤ) : _log_speed b ((0 : ℚ) - 0) = 0 := by
  rw [_log_speed, if_neg (by norm_num)]

/-- Counterexample to C7 as stated: a tracker whose *known* total size is
`0` does not log the `"<Operation>: <transferred> / <total> (<pct>%) —
<rate>/s"` form; its unconditional `finish()` line carries no total and no
percent sign at all (the code requires `total_size > 0`, not merely
"known", for the percentage form). -/
theorem percent_form_counterexample :
    (_AsyncProgressCallback.init false (some 0) none "Downloading" false
        0).finish 0 = "Downloading: 0.00 B — 0.00 B/s" ∧
      ("Downloading: 0.00 B — 0.00 B/s".data.contains '%') = false := by
  constructor
  · show _log_progress_line _ _ = _
    unfold _log_progress_line _AsyncProgressCallback.init
    dsimp only
    rw [if_neg (by omega)]
    rw [show ((0 : ℤ) : ℚ) = 0 by norm_num, log_speed_zero_elapsed,
      format_bytes_zero]
    rfl
  · decide

/-- C7 amended: the log line has the percentage form exactly when the total
size is known *and positive* (otherwise — unknown or zero — the short form
without total and percentage), and with `total = 1048576`,
`transferred = 524288` the emitted line contains `"50.0%"`. -/
theorem log_line_format (s : _AsyncProgressCallback) (now : ℚ) (t : ℤ) :
    (s._total_size = some t → 0 < t →
      _log_progress_line s now =
        s._operation ++ ": " ++ _format_bytes (s._bytes_transferred : ℚ) ++
          " / " ++ _format_bytes (t : ℚ) ++ " (" ++
          fixFmt 1 ((s._bytes_transferred : ℚ) / (t : ℚ) * 100) ++ "%) — " ++
          _format_bytes (_log_speed s._bytes_transferred (now - s._start_time))
          ++ "/s") ∧
      (s._total_size = none →
        _log_progress_line s now =
          s._operation ++ ": " ++ _format_bytes (s._bytes_transferred : ℚ) ++
            " — " ++
            _format_bytes (_log_speed s._bytes_transferred (now - s._start_time))
            ++ "/s") ∧
      (s._total_size = some t → t ≤ 0 →
        _log_progress_line s now =
          s._operation ++ ": " ++ _format_bytes (s._bytes_transferred : ℚ) ++
            " — " ++
            _format_bytes (_log_speed s._bytes_transferred (now - s._start_time))
            ++ "/s") ∧
      ((_AsyncProgressCallback.init true (some 1048576) (some 0)
          "Downloading" false 0).call 524288 0).log_out =
        some ("Downloading: 512.00 KB / 1.00 MB (" ++ "50.0%" ++
          ") — 0.00 B/s") := by
  refine ⟨?_, ?_, ?_, ?_⟩
  · intro h hpos
    unfold _log_progress_line
    rw [h]
    dsimp only
    rw [if_pos hpos]
  · intro h
    unfold _log_progress_line
    rw [h]
  · intro h hle
    unfold _log_progress_line
    rw [h]
    dsimp only
    rw [if_neg (by omega)]
  · unfold _AsyncProgressCallback.call _AsyncProgressCallback.init
    dsimp only
    rw [if_pos (by norm_num : (0 : ℚ) ≤ 0 - 0)]
    dsimp only
    unfold _log_progress_line
    dsimp only
    rw [if_pos (by omega : (0 : ℤ) < 1048576)]
    simp only [Bool.false_eq_true, if_false, zero_add]
    rw [show (((524288 : ℤ) : ℚ)) = (524288 : ℚ) by norm_num,
      show (((1048576 : ℤ) : ℚ)) = (1048576 : ℚ) by norm_num,
      log_speed_zero_elapsed, format_bytes_zero, format_bytes_524288,
      format_bytes_1048576,
      fixFmt_ofInt 1 ((524288 : ℚ) / 1048576 * 100) 500 (by norm_num)]
    rfl

/-- A sample tracker state with a known positive total size. -/
def trackerKnownTotal : _AsyncProgressCallback :=
  { _callback_present := false
    _bytes_transferred := 512
    _total_size := some 1024
    _progress_interval := none
    _operation := "Uploading"
    _cumulative := false
    _last_log_time := 0
    _start_time := 0 }

/-- A sample tracker state with an unknown total size. -/
def trackerUnknownTotal : _AsyncProgressCallback :=
  { trackerKnownTotal with _total_size := none }

/-- Witness for C7: the positive-total and unknown-total forms evaluated on
concrete trackers. -/
theorem log_line_format_witness :
    (_log_progress_line trackerKnownTotal 0 =
      trackerKnownTotal._operation ++ ": " ++
        _format_bytes (trackerKnownTotal._bytes_transferred : ℚ) ++ " / " ++
        _format_bytes ((1024 : ℤ) : ℚ) ++ " (" ++
        fixFmt 1 ((trackerKnownTotal._bytes_transferred : ℚ) /
          ((1024 : ℤ) : ℚ) * 100) ++ "%) — " ++
        _format_bytes (_log_speed trackerKnownTotal._bytes_transferred
          (0 - trackerKnownTotal._start_time)) ++ "/s") ∧
      (_log_progress_line trackerUnknownTotal 0 =
        trackerUnknownTotal._operation ++ ": " ++
          _format_bytes (trackerUnknownTotal._bytes_transferred : ℚ) ++ " — " ++
          _format_bytes (_log_speed trackerUnknownTotal._bytes_transferred
            (0 - trackerUnknownTotal._start_time)) ++ "/s") :=
  ⟨(log_line_format trackerKnownTotal 0 1024).1 rfl (by omega),
    (log_line_format trackerUnknownTotal 0 1024).2.1 rfl⟩

/-! ## Claim C8: throughput rate -/

/-- C8: the throughput rate entering every log line is
`bytesTransferred / elapsedSinceStart`, and exactly `0` when the elapsed
time is zero, so no division by zero is ever performed. -/
theorem log_speed_formula (s : _AsyncProgressCallback) (now : ℚ)
    (h : s._start_time ≤ now) :
    (now - s._start_time = 0 →
      _log_speed s._bytes_transferred (now - s._start_time) = 0) ∧
      (now - s._start_time ≠ 0 →
        _log_speed s._bytes_transferred (now - s._start_time) =
          (s._bytes_transferred : ℚ) / (now - s._start_time)) := by
  constructor
  · intro h0
    rw [_log_speed, if_neg (by rw [h0]; exact lt_irrefl 0)]
  · intro h0
    have hpos : 0 < now - s._start_time := by
      rcases lt_or_eq_of_le (by linarith : (0 : ℚ) ≤ now - s._start_time) with h1 | h1
      · exact h1
      · exact absurd h1.symm h0
    rw [_log_speed, if_pos hpos]

/-- Witness for C8: at elapsed time zero the rate the tracker logs is zero,
and at a positive elapsed time it is the bytes-per-elapsed quotient. -/
theorem log_speed_formula_witness :
    ((0 : ℚ) - trackerKnownTotal._start_time = 0 →
      _log_speed trackerKnownTotal._bytes_transferred
        (0 - trackerKnownTotal._start_time) = 0) ∧
      ((2 : ℚ) - trackerKnownTotal._start_time ≠ 0 →
        _log_speed trackerKnownTotal._bytes_transferred
          (2 - trackerKnownTotal._start_time) =
          (trackerKnownTotal._bytes_transferred : ℚ) /
            (2 - trackerKnownTotal._start_time)) :=
  ⟨(log_speed_formula trackerKnownTotal 0 (by norm_num [trackerKnownTotal])).1,
    (log_speed_formula trackerKnownTotal 2 (by norm_num [trackerKnownTotal])).2⟩

/-! ## Claim C9: synchronization of the counter update -/

/-- Counterexample to C9 as stated: no mutual-exclusion mechanism guards
`self._bytes_transferred += bytes_amount`, and the valid interleaving in
which both worker threads load the counter before either stores back loses
the first update: two concurrent signals of `100` and `200` leave the
counter at `200`, not `300`. -/
theorem lost_update_counterexample :
    (execSched 100 200 ⟨0, 0, 0⟩ overlappedSched).counter = 200 ∧
      (execSched 100 200 ⟨0, 0, 0⟩ overlappedSched).counter ≠ 100 + 200 := by
  constructor
  · rfl
  · decide

/-- C9 amended: the counter update is a plain unsynchronized
read-modify-write; when the two signals do not overlap (either serial
order) the counter correctly accumulates both amounts, but the overlapped
interleaving (both reads before both writes) loses an update. -/
theorem unsynchronized_counter_update (v1 v2 : ℤ) (c r1 r2 : ℤ) :
    (execSched v1 v2 ⟨c, r1, r2⟩ serialSched12).counter = c + v1 + v2 ∧
      (execSched v1 v2 ⟨c, r1, r2⟩ serialSched21).counter = c + v2 + v1 ∧
      (execSched 100 200 ⟨0, 0, 0⟩ overlappedSched).counter = 200 := by
  refine ⟨rfl, rfl, rfl⟩

/-! ## Claim C10: download skip when the destination exists -/

/-- C10: `download_file` with `overwrite=False` and an existing destination
returns the destination path immediately, producing the skip log as its
only effect: no backend contact (`head_object` or the transfer itself), no
progress tracker, no user-callback invocation, no progress log, and no
touching of the destination or its parent directory. -/
theorem download_skip_existing (overwrite dest_exists : Bool)
    (file_path : String) (progress_callback : Bool)
    (progress_interval : Option ℚ) (head_content_length : Option (Option ℤ))
    (cumulative : Bool) (signals : List (ℤ × ℚ)) (t0 tFinish : ℚ)
    (hov : overwrite = false) (hex : dest_exists = true) :
    download_file overwrite dest_exists file_path progress_callback
        progress_interval head_content_length cumulative signals t0 tFinish =
      (file_path, [DownloadEffect.skipLog]) ∧
      DownloadEffect.backendDownload ∉
        (download_file overwrite dest_exists file_path progress_callback
          progress_interval head_content_length cumulative signals t0
          tFinish).2 ∧
      DownloadEffect.headObject ∉
        (download_file overwrite dest_exists file_path progress_callback
          progress_interval head_content_length cumulative signals t0
          tFinish).2 ∧
      DownloadEffect.trackerCreated ∉
        (download_file overwrite dest_exists file_path progress_callback
          progress_interval head_content_length cumulative signals t0
          tFinish).2 ∧
      DownloadEffect.mkdirParent ∉
        (download_file overwrite dest_exists file_path progress_callback
          progress_interval head_content_length cumulative signals t0
          tFinish).2 ∧
      (∀ n : ℤ, DownloadEffect.userCallback n ∉
        (download_file overwrite dest_exists file_path progress_callback
          progress_interval head_content_length cumulative signals t0
          tFinish).2) ∧
      (∀ l : String, DownloadEffect.progressLog l ∉
        (download_file overwrite dest_exists file_path progress_callback
          progress_interval head_content_length cumulative signals t0
          tFinish).2) := by
  subst hov hex
  have hd : download_file false true file_path progress_callback
      progress_interval head_content_length cumulative signals t0 tFinish =
      (file_path, [DownloadEffect.skipLog]) := by
    unfold download_file
    rfl
  refine ⟨hd, ?_, ?_, ?_, ?_, ?_, ?_⟩ <;> rw [hd] <;> simp

/-- Witness for C10: a concrete skipped download. -/
theorem download_skip_existing_witness :
    download_file false true "/data/existing.txt" true (some 10) (some none)
        false [(100, 1)] 0 2 =
      ("/data/existing.txt", [DownloadEffect.skipLog]) ∧
      DownloadEffect.backendDownload ∉
        (download_file false true "/data/existing.txt" true (some 10)
          (some none) false [(100, 1)] 0 2).2 ∧
      DownloadEffect.headObject ∉
        (download_file false true "/data/existing.txt" true (some 10)
          (some none) false [(100, 1)] 0 2).2 ∧
      DownloadEffect.trackerCreated ∉
        (download_file false true "/data/existing.txt" true (some 10)
          (some none) false [(100, 1)] 0 2).2 ∧
      DownloadEffect.mkdirParent ∉
        (download_file false true "/data/existing.txt" true (some 10)
          (some none) false [(100, 1)] 0 2).2 ∧
      (∀ n : ℤ, DownloadEffect.userCallback n ∉
        (download_file false true "/data/existing.txt" true (some 10)
          (some none) false [(100, 1)] 0 2).2) ∧
      (∀ l : String, DownloadEffect.progressLog l ∉
        (download_file false true "/data/existing.txt" true (some 10)
          (some none) false [(100, 1)] 0 2).2) :=
  download_skip_existing false true "/data/existing.txt" true (some 10)
    (some none) false [(100, 1)] 0 2 rfl rfl
